import Mathlib

set_option autoImplicit false

namespace GithubProjectsMCP

/-!
Shallow embedding of the ticket/project adapter
`github_projects_mcp.github.client.GitHubProjectsClient` and the canonical
data model from `github_projects_mcp.models`.

Network effects are made explicit: every remote request a method issues is
recorded, in order, in a `List Effect`; the backend's responses are supplied
by an `Env` record, and the three memoized identifiers of the adapter
instance are threaded as an explicit `ClientState`.  Transport failures
(HTTP errors, timeouts) are modelled only where a method catches an
exception type around them; elsewhere the claims under study concern the
success paths and the adapter's own raised `ValueError`s, which appear here
as `Except.error` with the exact message strings of the source.
-/

/-- Wire record for one label, carrying its `name` key. -/
structure LabelRec where
  name : String
  deriving DecidableEq, Repr

/-- Wire record for one assignee, carrying its `login` key. -/
structure AssigneeRec where
  login : String
  deriving DecidableEq, Repr

/-- Wire record for a milestone, carrying its `title` key. -/
structure MilestoneRec where
  title : String
  deriving DecidableEq, Repr

/-- Shape of a sub-collection on the wire, as branched on by
`_parse_issue_to_ticket` via `isinstance(..., dict)`: the GraphQL shape is a
JSON object whose `nodes` key may be absent (`.get("nodes", [])`), the REST
shape is a flat list. -/
inductive Shape (α : Type) where
  | gql (nodes : Option (List α))
  | rest (items : List α)
  deriving DecidableEq, Repr

/-- One node of a project item's `fieldValues` collection: its `__typename`
and `name` keys, either of which may be absent (`field.get(...)`). -/
structure FieldValueNode where
  typename : Option String
  name : Option String
  deriving DecidableEq, Repr

/-- Project-item payload passed to `_parse_issue_to_ticket`.  `fieldValues`
is `none` when the key is absent, `None` or a falsy (empty) object, and
`some ns` for `{"nodes": ns}` (an object without a `nodes` key is `some []`,
matching `.get("nodes", [])`). -/
structure ProjectItemData where
  fieldValues : Option (List FieldValueNode)
  deriving DecidableEq, Repr

/-- Raw issue payload, covering the keys `_parse_issue_to_ticket` reads.
Timestamps are kept as their raw wire strings; their conversion to datetime
objects is value-preserving bookkeeping not touched by any claim. -/
structure Issue where
  id : String
  number : Option Nat := none
  title : String
  body : Option String := none
  labels : Shape LabelRec := .rest []
  assignees : Shape AssigneeRec := .rest []
  milestone : Option MilestoneRec := none
  createdAt : Option String := none
  updatedAt : Option String := none
  url : Option String := none
  deriving DecidableEq, Repr

/-- Canonical `Ticket` model (`models/ticket.py`).  `status` is an open
string, matching the `TicketStatus | str` field type.  The `metadata` map
carries exactly the `github_node_id` entry the client ever writes. -/
structure Ticket where
  id : String
  number : Option Nat := none
  title : String
  body : Option String := none
  status : String
  labels : List String := []
  assignees : List String := []
  milestone : Option String := none
  branch : Option String := none
  pullRequests : List String := []
  subtasks : List String := []
  createdAt : Option String := none
  updatedAt : Option String := none
  url : Option String := none
  githubNodeId : String := ""
  deriving DecidableEq, Repr

/-- Canonical `Comment` model (`models/comment.py`), timestamps raw. -/
structure Comment where
  id : String
  ticketId : String
  author : String
  body : String
  createdAt : Option String := none
  updatedAt : Option String := none
  url : Option String := none
  deriving DecidableEq, Repr

/-- Value of `TicketStatus.TODO` (`models/ticket.py`), the baseline status. -/
def ticketStatusTodo : String := "Todo"

/-- Labels normalization of `_parse_issue_to_ticket` (client.py 215-220):
on the GraphQL shape take `labels_data.get("nodes", [])`, on the REST shape
the list itself; in both cases map out the `name` key. -/
def parseLabels : Shape LabelRec → List String
  | .gql nodes => (nodes.getD []).map (·.name)
  | .rest items => items.map (·.name)

/-- Assignees normalization of `_parse_issue_to_ticket` (client.py 222-227),
mapping out the `login` key. -/
def parseAssignees : Shape AssigneeRec → List String
  | .gql nodes => (nodes.getD []).map (·.login)
  | .rest items => items.map (·.login)

/-- Status scan of `_parse_issue_to_ticket` (client.py 236-239): iterate over
the `fieldValues` nodes and, at every node whose `__typename` equals
`"ProjectV2ItemFieldSingleSelectValue"`, overwrite the running status with
that node's `name` (`field.get("name", status)` keeps the running value when
the key is absent).  There is no early exit from the loop. -/
def scanStatus (nodes : List FieldValueNode) (status : String) : String :=
  nodes.foldl
    (fun st f =>
      if f.typename = some "ProjectV2ItemFieldSingleSelectValue" then f.name.getD st else st)
    status

/-- Status derivation of `_parse_issue_to_ticket` (client.py 234-239):
default `TicketStatus.TODO.value`, overwritten by the scan when a truthy
`fieldValues` collection is present. -/
def parseStatus : Option ProjectItemData → String
  | none => ticketStatusTodo
  | some item =>
    match item.fieldValues with
    | none => ticketStatusTodo
    | some nodes => scanStatus nodes ticketStatusTodo

/-- Normalizer `_parse_issue_to_ticket` (client.py 203-262). -/
def parseIssueToTicket (issue : Issue) (projectItem : Option ProjectItemData) : Ticket :=
  { id := issue.id
    number := issue.number
    title := issue.title
    body := issue.body
    status := parseStatus projectItem
    labels := parseLabels issue.labels
    assignees := parseAssignees issue.assignees
    milestone := issue.milestone.map (·.title)
    createdAt := issue.createdAt
    updatedAt := issue.updatedAt
    url := issue.url
    githubNodeId := issue.id }

/-- Remote reads the client can issue, one constructor per distinct query. -/
inductive QueryKind where
  | repoProject (number : Nat)
  | userProject (number : Nat)
  | orgProject (number : Nat)
  | projectFields (projectId : String)
  | projectItems (projectId : String)
  | issueByNumber (number : Nat)
  | nodeById (id : String)
  deriving DecidableEq, Repr

/-- Remote mutations the client can issue in the operations under study. -/
inductive MutKind where
  | updateFieldValue (projectId itemId fieldId optionId : String)
  | addComment (subjectId body : String)
  deriving DecidableEq, Repr

/-- One remote request, as recorded in order in the effect trace. -/
inductive Effect where
  | query (q : QueryKind)
  | mutate (m : MutKind)
  deriving DecidableEq, Repr

/-- Whether an effect writes remote state. -/
def Effect.isMutation : Effect → Bool
  | .query _ => false
  | .mutate _ => true

/-- Mutations of an effect trace, in order. -/
def mutations (l : List Effect) : List Effect :=
  l.filter Effect.isMutation

/-- Outcome of one project-scope lookup inside `_get_project_id`: the data
carries a `projectV2` object with its id; or the data is present but the
scope or its project is null/absent; or the response carried a GraphQL error
list (the `ValueError` each scope's `except` clause catches); or a transport
failure (`httpx.HTTPError`), which no clause catches. -/
inductive ScopeOutcome where
  | found (id : String)
  | nullData
  | gqlError
  | transportError (msg : String)
  deriving DecidableEq, Repr

/-- Whether a scope lookup reported a not-found-shaped outcome: null/absent
data or a swallowed GraphQL error. -/
def ScopeOutcome.notFoundish : ScopeOutcome → Bool
  | .nullData => true
  | .gqlError => true
  | _ => false

/-- Wire record for one option of a single-select field. -/
structure OptionNode where
  id : String
  name : String
  deriving DecidableEq, Repr

/-- Wire record for one node of the project's `fields` collection.  A node
that is falsy or lacks a `name` key is modelled by `name := none`; such a
node never matches the `"Status"` comparison. -/
structure FieldNode where
  name : Option String
  id : String := ""
  options : List OptionNode := []
  deriving DecidableEq, Repr

/-- Wire record for the `content` of a project item (`... on Issue`). -/
structure ContentRef where
  id : String
  number : Option Nat := none
  deriving DecidableEq, Repr

/-- Wire record for one node of the project's `items` collection; `content`
is `none` when the item's content is absent or a falsy (non-Issue) object. -/
structure ItemNode where
  id : String
  content : Option ContentRef := none
  deriving DecidableEq, Repr

/-- Payload the `addComment` mutation returns; `author` is the author's
login, `none` when the backend reports no author. -/
structure CommentNode where
  id : String
  author : Option String := none
  body : String
  createdAt : Option String := none
  updatedAt : Option String := none
  url : Option String := none
  deriving DecidableEq, Repr

/-- Backend environment: the response each remote request would receive.
All reads are pure functions of the request, so repeating a query yields the
same response within one modelled run. -/
structure Env where
  repoScope : Nat → ScopeOutcome
  userScope : Nat → ScopeOutcome
  orgScope : Nat → ScopeOutcome
  /-- Nodes of the project's `fields(first: 20)` page. -/
  fields : List FieldNode := []
  /-- Nodes of the project's `items(first: 100)` page. -/
  items : List ItemNode := []
  /-- Response of `repository.issue(number:)`; `none` for null. -/
  byNumber : Nat → Option Issue
  /-- Response of `node(id:)` as an Issue; `none` for null or non-Issue. -/
  byId : String → Option Issue
  /-- Node returned by the `addComment` mutation for a subject id and body. -/
  addCommentResult : String → String → CommentNode

/-- Constructor configuration of `GitHubProjectsClient.__init__`. -/
structure Client where
  owner : String
  repo : String
  projectNumber : Option Nat := none
  deriving DecidableEq, Repr

/-- The three memoization attributes initialized in `__init__`
(client.py 39-41), threaded explicitly. -/
structure ClientState where
  projectId : Option String := none
  repoId : Option String := none
  statusFieldId : Option String := none
  deriving DecidableEq, Repr

/-- Python truthiness of an optional string: `None` and `""` are falsy. -/
def truthyStr : Option String → Bool
  | none => false
  | some s => !s.data.isEmpty

/-- Python `a or b` over optional non-negative ints: `None` and `0` are
falsy, so `a` wins exactly when it is a present non-zero number. -/
def pyOrNum (a b : Option Nat) : Option Nat :=
  match a with
  | some n => if n = 0 then b else some n
  | none => b

/-- Rendering of an optional int inside a Python f-string: `None` prints as
the four-letter word. -/
def pyShowOptNat : Option Nat → String
  | some n => toString n
  | none => "None"

/-- Message raised by `_get_project_id` after all three scopes fail. -/
def projectNotFoundMsg (c : Client) (pn : Nat) : String :=
  "Project " ++ toString pn ++ " not found in repository " ++ c.owner ++ "/" ++ c.repo
    ++ ", user " ++ c.owner ++ ", or organization " ++ c.owner

/-- Method `_get_project_id` (client.py 122-201): return the memoized id if
truthy; otherwise resolve the effective project number (Python `or`, then a
falsiness check), then try the repository, user and organization scopes in
that order, swallowing not-found-shaped outcomes, memoizing and returning
the first hit, and raising a message naming all three scopes when every
scope missed.  A transport failure propagates from whichever scope hit it. -/
def getProjectId (c : Client) (env : Env) (st : ClientState)
    (projectNumber : Option Nat) : Except String String × ClientState × List Effect :=
  if truthyStr st.projectId then (.ok (st.projectId.getD ""), st, [])
  else
    match pyOrNum projectNumber c.projectNumber with
    | none => (.error "Project number not specified", st, [])
    | some pn =>
      if pn = 0 then (.error "Project number not specified", st, [])
      else
        match env.repoScope pn with
        | .found i => (.ok i, { st with projectId := some i }, [.query (.repoProject pn)])
        | .transportError e => (.error e, st, [.query (.repoProject pn)])
        | _ =>
          match env.userScope pn with
          | .found i => (.ok i, { st with projectId := some i },
              [.query (.repoProject pn), .query (.userProject pn)])
          | .transportError e => (.error e, st,
              [.query (.repoProject pn), .query (.userProject pn)])
          | _ =>
            match env.orgScope pn with
            | .found i => (.ok i, { st with projectId := some i },
                [.query (.repoProject pn), .query (.userProject pn), .query (.orgProject pn)])
            | .transportError e => (.error e, st,
                [.query (.repoProject pn), .query (.userProject pn), .query (.orgProject pn)])
            | _ => (.error (projectNotFoundMsg c pn), st,
                [.query (.repoProject pn), .query (.userProject pn), .query (.orgProject pn)])

/-- Python `str.isdigit` on ASCII content: nonempty and every character a
digit. -/
def pyIsDigit (s : String) : Bool :=
  !s.data.isEmpty && s.data.all (·.isDigit)

/-- Python `int(...)` on an all-digits string. -/
def digitsToNat (s : String) : Nat :=
  s.data.foldl (fun n c => n * 10 + (c.toNat - 48)) 0

/-- Python `str.lower()` on ASCII content, character-wise. -/
def pyLower (s : String) : String :=
  ⟨s.data.map Char.toLower⟩

/-- Method `get_ticket` (client.py 370-444): dispatch on `isdigit` to the
number-based repository query or the node-id query, raise the not-found
message when the backend returns null, otherwise normalize. -/
def getTicket (env : Env) (ticketId : String) : Except String Ticket × List Effect :=
  if pyIsDigit ticketId then
    match env.byNumber (digitsToNat ticketId) with
    | some issue =>
        (.ok (parseIssueToTicket issue none), [.query (.issueByNumber (digitsToNat ticketId))])
    | none =>
        (.error ("Ticket " ++ ticketId ++ " not found"),
         [.query (.issueByNumber (digitsToNat ticketId))])
  else
    match env.byId ticketId with
    | some issue => (.ok (parseIssueToTicket issue none), [.query (.nodeById ticketId)])
    | none => (.error ("Ticket " ++ ticketId ++ " not found"), [.query (.nodeById ticketId)])

/-- Method `add_comment` (client.py 503-548): resolve the ticket, issue the
comment mutation against its node id, build the `Comment` from the node the
mutation returns (missing author becomes `"ghost"`). -/
def addComment (env : Env) (ticketId body : String) : Except String Comment × List Effect :=
  match getTicket env ticketId with
  | (.error e, l) => (.error e, l)
  | (.ok t, l) =>
    let node := env.addCommentResult t.id body
    (.ok { id := node.id, ticketId := t.id, author := node.author.getD "ghost",
           body := node.body, createdAt := node.createdAt, updatedAt := node.updatedAt,
           url := node.url },
     l ++ [.mutate (.addComment t.id body)])

/-- Method `add_branch` (client.py 791-800): fetch the ticket and set its
`branch` attribute on the fetched object; nothing is written remotely. -/
def addBranch (env : Env) (ticketId branchName : String) : Except String Ticket × List Effect :=
  match getTicket env ticketId with
  | (.error e, l) => (.error e, l)
  | (.ok t, l) => (.ok { t with branch := some branchName }, l)

/-- Method `add_pull_request` (client.py 802-809): fetch the ticket and
append the URL to its `pull_requests` list; nothing is written remotely. -/
def addPullRequest (env : Env) (ticketId prUrl : String) : Except String Ticket × List Effect :=
  match getTicket env ticketId with
  | (.error e, l) => (.error e, l)
  | (.ok t, l) => (.ok { t with pullRequests := t.pullRequests ++ [prUrl] }, l)

/-- Method `add_subtask` (client.py 811-826): fetch both tickets, post the
subtask comment on the parent, append the subtask id to the initially
fetched parent object's `subtasks` list and return that object.  There is
no re-fetch after the comment. -/
def addSubtask (env : Env) (parentId subtaskId : String) : Except String Ticket × List Effect :=
  match getTicket env parentId with
  | (.error e, l) => (.error e, l)
  | (.ok parent, l1) =>
    match getTicket env subtaskId with
    | (.error e, l) => (.error e, l1 ++ l)
    | (.ok subtask, l2) =>
      match addComment env parentId
          ("Subtask: #" ++ pyShowOptNat subtask.number ++ " " ++ subtask.title) with
      | (.error e, l) => (.error e, l1 ++ l2 ++ l)
      | (.ok _, l3) =>
        (.ok { parent with subtasks := parent.subtasks ++ [subtaskId] }, l1 ++ l2 ++ l3)

/-- Method `add_parent` (client.py 1039-1062): fetch both tickets, post the
parent comment on the child, then re-fetch and return the child. -/
def addParent (env : Env) (ticketId parentId : String) : Except String Ticket × List Effect :=
  match getTicket env ticketId with
  | (.error e, l) => (.error e, l)
  | (.ok _, l1) =>
    match getTicket env parentId with
    | (.error e, l) => (.error e, l1 ++ l)
    | (.ok parent, l2) =>
      match addComment env ticketId
          ("Parent: #" ++ pyShowOptNat parent.number ++ " " ++ parent.title) with
      | (.error e, l) => (.error e, l1 ++ l2 ++ l)
      | (.ok _, l3) =>
        match getTicket env ticketId with
        | (r, l4) => (r, l1 ++ l2 ++ l3 ++ l4)

/-- Method `add_blocked_by` (client.py 1064-1087): fetch both tickets, post
the blocked-by comment on the blocked ticket, then re-fetch and return it. -/
def addBlockedBy (env : Env) (ticketId blockingTicketId : String) :
    Except String Ticket × List Effect :=
  match getTicket env ticketId with
  | (.error e, l) => (.error e, l)
  | (.ok _, l1) =>
    match getTicket env blockingTicketId with
    | (.error e, l) => (.error e, l1 ++ l)
    | (.ok blocker, l2) =>
      match addComment env ticketId
          ("Blocked by: #" ++ pyShowOptNat blocker.number ++ " " ++ blocker.title) with
      | (.error e, l) => (.error e, l1 ++ l2 ++ l)
      | (.ok _, l3) =>
        match getTicket env ticketId with
        | (r, l4) => (r, l1 ++ l2 ++ l3 ++ l4)

/-- Method `add_blocking` (client.py 1089-1112): fetch both tickets, post
the blocking comment on the blocking ticket, then re-fetch and return it. -/
def addBlocking (env : Env) (ticketId blockedTicketId : String) :
    Except String Ticket × List Effect :=
  match getTicket env ticketId with
  | (.error e, l) => (.error e, l)
  | (.ok _, l1) =>
    match getTicket env blockedTicketId with
    | (.error e, l) => (.error e, l1 ++ l)
    | (.ok blocked, l2) =>
      match addComment env ticketId
          ("Blocking: #" ++ pyShowOptNat blocked.number ++ " " ++ blocked.title) with
      | (.error e, l) => (.error e, l1 ++ l2 ++ l)
      | (.ok _, l3) =>
        match getTicket env ticketId with
        | (r, l4) => (r, l1 ++ l2 ++ l3 ++ l4)

/-- Python dict assignment on an insertion-ordered assoc list: updating an
existing key keeps its position, a fresh key is appended. -/
def dictInsert (d : List (String × String)) (k v : String) : List (String × String) :=
  if d.any (fun p => p.1 = k) then d.map (fun p => if p.1 = k then (k, v) else p)
  else d ++ [(k, v)]

/-- Dict comprehension building the option-name-to-id map of
`_get_status_field_id` (client.py 658), insertion order preserved. -/
def optionsDict (opts : List OptionNode) : List (String × String) :=
  opts.foldl (fun d o => dictInsert d o.name o.id) []

/-- Method `_get_status_field_id` (client.py 615-660): resolve the project
id, fetch the project's fields page, take the first field named exactly
`"Status"`, and return its id with the options dict.  Note the method
neither reads nor writes the `_status_field_id` attribute; the only state it
touches is through `_get_project_id`. -/
def getStatusFieldId (c : Client) (env : Env) (st : ClientState)
    (projectNumber : Option Nat) :
    Except String (String × List (String × String)) × ClientState × List Effect :=
  match getProjectId c env st projectNumber with
  | (.error e, st1, l1) => (.error e, st1, l1)
  | (.ok pid, st1, l1) =>
    let l := l1 ++ [.query (.projectFields pid)]
    match env.fields.find? (fun f => f.name = some "Status") with
    | none => (.error "Status field not found in project", st1, l)
    | some fld => (.ok (fld.id, optionsDict fld.options), st1, l)

/-- Method `_get_project_item_id` (client.py 662-712): fetch the ticket,
resolve the project id, fetch the project's items page and linearly scan for
the item whose content id equals the ticket's id. -/
def getProjectItemId (c : Client) (env : Env) (st : ClientState)
    (ticketId : String) (projectNumber : Option Nat) :
    Except String String × ClientState × List Effect :=
  match getTicket env ticketId with
  | (.error e, l) => (.error e, st, l)
  | (.ok t, l0) =>
    match getProjectId c env st projectNumber with
    | (.error e, st1, l1) => (.error e, st1, l0 ++ l1)
    | (.ok pid, st1, l1) =>
      let l := l0 ++ l1 ++ [.query (.projectItems pid)]
      match env.items.find? (fun it =>
          match it.content with
          | some cnt => cnt.id = t.id
          | none => false) with
      | some it => (.ok it.id, st1, l)
      | none =>
        (.error ("Ticket #" ++ pyShowOptNat t.number
            ++ " not found in project. Use add_ticket_to_project first."), st1, l)

/-- Message raised by `update_status` when no option matches. -/
def statusNotFoundMsg (status : String) (options : List (String × String)) : String :=
  "Status '" ++ status ++ "' not found. Available options: "
    ++ String.intercalate ", " (options.map Prod.fst)

/-- Method `update_status` (client.py 714-789): resolve the status field and
its options, find the first case-insensitive match of the requested status
among the option names (raising the enumerating message when the match is
missing or its id falsy), resolve the project item id and the project id,
issue the field-update mutation, re-fetch the ticket, and overwrite its
status with the name of the first option whose id equals the matched option
id. -/
def updateStatus (c : Client) (env : Env) (st : ClientState)
    (ticketId status : String) (projectNumber : Option Nat) :
    Except String Ticket × ClientState × List Effect :=
  let projectNum := pyOrNum projectNumber c.projectNumber
  match getStatusFieldId c env st projectNum with
  | (.error e, st1, l1) => (.error e, st1, l1)
  | (.ok (fieldId, options), st1, l1) =>
    let optionId := (options.find? (fun p => pyLower p.1 = pyLower status)).map Prod.snd
    if !truthyStr optionId then
      (.error (statusNotFoundMsg status options), st1, l1)
    else
      let oid := optionId.getD ""
      match getProjectItemId c env st1 ticketId projectNum with
      | (.error e, st2, l2) => (.error e, st2, l1 ++ l2)
      | (.ok itemId, st2, l2) =>
        match getProjectId c env st2 projectNum with
        | (.error e, st3, l3) => (.error e, st3, l1 ++ l2 ++ l3)
        | (.ok pid, st3, l3) =>
          let lmut := l1 ++ l2 ++ l3 ++ [.mutate (.updateFieldValue pid itemId fieldId oid)]
          match getTicket env ticketId with
          | (.error e, l4) => (.error e, st3, lmut ++ l4)
          | (.ok t, l4) =>
            let t2 := match options.find? (fun p => p.2 = oid) with
              | some p => { t with status := p.1 }
              | none => t
            (.ok t2, st3, lmut ++ l4)

/-- Names carried by the single-select entries of a field-value collection,
in collection order: the specification value the status scan computes. -/
def singleSelectNames (nodes : List FieldValueNode) : List String :=
  (nodes.filter (fun f => f.typename = some "ProjectV2ItemFieldSingleSelectValue")).filterMap
    (fun f => f.name)

instance {ε α : Type} [DecidableEq ε] [DecidableEq α] : DecidableEq (Except ε α) := fun a b =>
  match a, b with
  | .ok x, .ok y => if h : x = y then .isTrue (by rw [h]) else .isFalse (by simp [h])
  | .error x, .error y => if h : x = y then .isTrue (by rw [h]) else .isFalse (by simp [h])
  | .ok _, .error _ => .isFalse (by simp)
  | .error _, .ok _ => .isFalse (by simp)

/-! Concrete fixtures used by witnesses and counterexamples. -/

/-- A backend issue numbered 10. -/
def issueA : Issue := { id := "NID_A", number := some 10, title := "Ticket A" }

/-- A backend issue numbered 11. -/
def issueB : Issue := { id := "NID_B", number := some 11, title := "Ticket B" }

/-- Sample adapter configuration with default project number 5. -/
def sampleClient : Client := { owner := "octo", repo := "demo", projectNumber := some 5 }

/-- Adapter state with the project id already resolved. -/
def cachedState : ClientState := { projectId := some "P1" }

/-- Backend with two issues, a project numbered 5 reachable only through the
organization scope, a Status field with three options, and issue A on the
project board. -/
def sampleEnv : Env :=
  { repoScope := fun _ => .nullData
    userScope := fun _ => .gqlError
    orgScope := fun n => if n = 5 then .found "P1" else .nullData
    fields := [{ name := some "Status", id := "F1",
                 options := [{ id := "O1", name := "Todo" },
                             { id := "O2", name := "In Progress" },
                             { id := "O3", name := "Done" }] }]
    items := [{ id := "ITEM_A", content := some { id := "NID_A", number := some 10 } }]
    byNumber := fun n => if n = 10 then some issueA else if n = 11 then some issueB else none
    byId := fun i => if i = "NID_A" then some issueA else none
    addCommentResult := fun _ b => { id := "CMT", author := some "octo", body := b } }

/-! General lemmas about the embedded operations. -/

theorem truthyStr_some {s : String} (h : s ≠ "") : truthyStr (some s) = true := by
  simp only [truthyStr, Bool.not_eq_true']
  cases hd : s.data with
  | nil => exact absurd (String.ext (by rw [hd])) h
  | cons a l => rfl

theorem getProjectId_cached (c : Client) (env : Env) (st : ClientState) (pid : String)
    (h : st.projectId = some pid) (hne : pid ≠ "") (pn : Option Nat) :
    getProjectId c env st pn = (.ok pid, st, []) := by
  simp [getProjectId, h, truthyStr_some hne]

theorem getD_getLast?_cons (L : List String) : ∀ a s : String,
    ((a :: L).getLast?).getD s = (L.getLast?).getD a := by
  induction L with
  | nil => intro a s; rfl
  | cons b L' ih =>
    intro a s
    rw [List.getLast?_cons_cons, ih b s, ih b a]

theorem scanStatus_spec (nodes : List FieldValueNode) (s : String) :
    scanStatus nodes s = (singleSelectNames nodes).getLast?.getD s := by
  induction nodes generalizing s with
  | nil => rfl
  | cons f fs ih =>
    by_cases h : f.typename = some "ProjectV2ItemFieldSingleSelectValue"
    · cases hn : f.name with
      | none =>
        have h1 : scanStatus (f :: fs) s = scanStatus fs s := by
          simp [scanStatus, h, hn]
        have h2 : singleSelectNames (f :: fs) = singleSelectNames fs := by
          simp [singleSelectNames, List.filter_cons, h, List.filterMap_cons, hn]
        rw [h1, ih, h2]
      | some n =>
        have h1 : scanStatus (f :: fs) s = scanStatus fs n := by
          simp [scanStatus, h, hn]
        have h2 : singleSelectNames (f :: fs) = n :: singleSelectNames fs := by
          simp [singleSelectNames, List.filter_cons, h, List.filterMap_cons, hn]
        rw [h1, ih, h2, getD_getLast?_cons]
    · have h1 : scanStatus (f :: fs) s = scanStatus fs s := by
        simp [scanStatus, h]
      have h2 : singleSelectNames (f :: fs) = singleSelectNames fs := by
        simp [singleSelectNames, List.filter_cons, h]
      rw [h1, ih, h2]


/-- C6 counterexample: a field-value collection with two single-select
entries named "In Progress" then "Done" yields status "Done" (the last
entry), not "In Progress" (the first), refuting the first-entry claim. -/
theorem first_single_select_cex :
    (parseIssueToTicket issueA (some { fieldValues := some [
        { typename := some "ProjectV2ItemFieldSingleSelectValue", name := some "In Progress" },
        { typename := some "ProjectV2ItemFieldSingleSelectValue", name := some "Done" }] })).status
      = "Done" ∧ ("Done" : String) ≠ "In Progress" :=
  ⟨rfl, by decide⟩

/-- C6 (amended): the normalizer sets the status to the name of the last
single-select entry of the collection (an entry without a name leaves the
running value unchanged); with no such entry, no truthy collection, or no
project item, the status is the baseline "Todo". -/
theorem status_from_last_single_select (issue : Issue) (nodes : List FieldValueNode) :
    (parseIssueToTicket issue (some { fieldValues := some nodes })).status
        = (singleSelectNames nodes).getLast?.getD "Todo" ∧
    (parseIssueToTicket issue (some { fieldValues := none })).status = "Todo" ∧
    (parseIssueToTicket issue none).status = "Todo" := by
  refine ⟨?_, rfl, rfl⟩
  simpa [parseIssueToTicket, parseStatus, ticketStatusTodo] using scanStatus_spec nodes "Todo"

/-- C8: for the same label records in the same order, the GraphQL nodes
shape and the REST flat-list shape normalize to the same ordered name list;
the same holds for assignee logins; and the two sub-collections are
branched independently: the ticket's labels are a function of the labels
payload alone and its assignees of the assignees payload alone. -/
theorem shape_normalization_equivalent :
    (∀ recs : List LabelRec,
        parseLabels (.gql (some recs)) = parseLabels (.rest recs)
          ∧ parseLabels (.rest recs) = recs.map (·.name)) ∧
    (∀ recs : List AssigneeRec,
        parseAssignees (.gql (some recs)) = parseAssignees (.rest recs)
          ∧ parseAssignees (.rest recs) = recs.map (·.login)) ∧
    (∀ (issue : Issue) (ls : Shape LabelRec) (sh : Shape AssigneeRec)
        (item : Option ProjectItemData),
        (parseIssueToTicket { issue with labels := ls, assignees := sh } item).labels
            = parseLabels ls
          ∧ (parseIssueToTicket { issue with labels := ls, assignees := sh } item).assignees
            = parseAssignees sh) :=
  ⟨fun _ => ⟨rfl, rfl⟩, fun _ => ⟨rfl, rfl⟩, fun _ _ _ _ => ⟨rfl, rfl⟩⟩

/-- C7: get dispatches to the number-based lookup exactly when the ticket id
is nonempty and all digits (so the empty string and any string with a
non-digit go to the node-id lookup), and on either path a null backend
response raises the not-found message naming the identifier. -/
theorem get_ticket_dispatch (env : Env) (s : String) :
    ((s ≠ "" ∧ ∀ ch ∈ s.data, ch.isDigit = true) →
        (getTicket env s).2 = [.query (.issueByNumber (digitsToNat s))] ∧
        (env.byNumber (digitsToNat s) = none →
            (getTicket env s).1 = .error ("Ticket " ++ s ++ " not found"))) ∧
    ((s = "" ∨ ¬ ∀ ch ∈ s.data, ch.isDigit = true) →
        (getTicket env s).2 = [.query (.nodeById s)] ∧
        (env.byId s = none →
            (getTicket env s).1 = .error ("Ticket " ++ s ++ " not found"))) := by
  have hiff : pyIsDigit s = true ↔ (s ≠ "" ∧ ∀ ch ∈ s.data, ch.isDigit = true) := by
    simp only [pyIsDigit, Bool.and_eq_true, Bool.not_eq_true', List.isEmpty_eq_false,
      List.all_eq_true]
    constructor
    · rintro ⟨h1, h2⟩
      exact ⟨fun he => h1 (by rw [he]), h2⟩
    · rintro ⟨h1, h2⟩
      refine ⟨fun hd => h1 (String.ext (by rw [hd])), h2⟩
  constructor
  · intro h
    have hd : pyIsDigit s = true := hiff.mpr h
    constructor
    · cases hb : env.byNumber (digitsToNat s) <;> simp [getTicket, hd, hb]
    · intro hb
      simp [getTicket, hd, hb]
  · intro h
    have hd : pyIsDigit s = false := by
      cases hp : pyIsDigit s
      · rfl
      · exact absurd (hiff.mp hp) (by tauto)
    constructor
    · cases hb : env.byId s <;> simp [getTicket, hd, hb]
    · intro hb
      simp [getTicket, hd, hb]

/-- C7 witness: a numeric id "10" goes to the number lookup and a missing
numeric id "99" raises; the non-numeric ids "NID_A" and "" go to the node-id
lookup and a missing one raises. -/
theorem get_ticket_dispatch_witness :
    (getTicket sampleEnv "10").2 = [.query (.issueByNumber 10)] ∧
    (getTicket sampleEnv "99").1 = .error "Ticket 99 not found" ∧
    (getTicket sampleEnv "NID_A").2 = [.query (.nodeById "NID_A")] ∧
    (getTicket sampleEnv "").1 = .error "Ticket  not found" := by
  refine ⟨?_, ?_, ?_, ?_⟩
  · exact ((get_ticket_dispatch sampleEnv "10").1 (by decide)).1
  · exact ((get_ticket_dispatch sampleEnv "99").1 (by decide)).2 (by decide)
  · exact ((get_ticket_dispatch sampleEnv "NID_A").2 (by decide)).1
  · exact ((get_ticket_dispatch sampleEnv "").2 (by decide)).2 (by decide)


/-- C4: once the adapter instance holds a resolved project id, every
project-id resolution returns the memoized id with no remote lookup, for
every requested project number. -/
theorem project_id_cache_ignores_number (c : Client) (env : Env) (st : ClientState)
    (pid : String) (h : st.projectId = some pid) (hne : pid ≠ "") (pnReq : Option Nat) :
    getProjectId c env st pnReq = (.ok pid, st, []) :=
  getProjectId_cached c env st pid h hne pnReq

/-- C4 witness: a state caching "P1" answers a request for project 99 with
"P1" and performs no lookup. -/
theorem project_id_cache_ignores_number_witness :
    getProjectId sampleClient sampleEnv cachedState (some 99) = (.ok "P1", cachedState, []) :=
  project_id_cache_ignores_number sampleClient sampleEnv cachedState "P1" rfl (by decide)
    (some 99)

/-- C3: on an uncached instance, resolution tries the repository, user and
organization scopes in that fixed order, returns the first scope's id,
swallows not-found-shaped outcomes of earlier scopes, and only after all
three scopes fail raises the message naming all three scopes. -/
theorem project_id_scope_order (c : Client) (env : Env) (st : ClientState) (n : Nat)
    (hcache : st.projectId = none) (hn : n ≠ 0) :
    (∀ i, env.repoScope n = .found i →
        getProjectId c env st (some n)
          = (.ok i, { st with projectId := some i }, [.query (.repoProject n)])) ∧
    ((env.repoScope n).notFoundish = true →
      (∀ i, env.userScope n = .found i →
          getProjectId c env st (some n)
            = (.ok i, { st with projectId := some i },
               [.query (.repoProject n), .query (.userProject n)])) ∧
      ((env.userScope n).notFoundish = true →
        (∀ i, env.orgScope n = .found i →
            getProjectId c env st (some n)
              = (.ok i, { st with projectId := some i },
                 [.query (.repoProject n), .query (.userProject n),
                  .query (.orgProject n)])) ∧
        ((env.orgScope n).notFoundish = true →
            getProjectId c env st (some n)
              = (.error (projectNotFoundMsg c n), st,
                 [.query (.repoProject n), .query (.userProject n),
                  .query (.orgProject n)])))) := by
  have hbase : truthyStr st.projectId = false := by rw [hcache]; rfl
  have hpn : pyOrNum (some n) c.projectNumber = some n := by simp [pyOrNum, hn]
  refine ⟨?_, fun hr => ⟨?_, fun hu => ⟨?_, fun ho => ?_⟩⟩⟩
  · intro i hi
    simp [getProjectId, hbase, hpn, hn, hi]
  · intro i hi
    cases hrv : env.repoScope n <;> simp [hrv, ScopeOutcome.notFoundish] at hr <;>
      simp [getProjectId, hbase, hpn, hn, hrv, hi]
  · intro i hi
    cases hrv : env.repoScope n <;> simp [hrv, ScopeOutcome.notFoundish] at hr <;>
      cases huv : env.userScope n <;> simp [huv, ScopeOutcome.notFoundish] at hu <;>
        simp [getProjectId, hbase, hpn, hn, hrv, huv, hi]
  · cases hrv : env.repoScope n <;> simp [hrv, ScopeOutcome.notFoundish] at hr <;>
      cases huv : env.userScope n <;> simp [huv, ScopeOutcome.notFoundish] at hu <;>
        cases hov : env.orgScope n <;> simp [hov, ScopeOutcome.notFoundish] at ho <;>
          simp [getProjectId, hbase, hpn, hn, hrv, huv, hov]

/-- C3 witness: project 5 exists only under the organization scope of
sampleEnv (repository null, user GraphQL error); resolution on an uncached
state succeeds with "P1" after the three lookups in order. -/
theorem project_id_scope_order_witness :
    getProjectId sampleClient sampleEnv { } (some 5)
      = (.ok "P1", { projectId := some "P1" },
         [.query (.repoProject 5), .query (.userProject 5), .query (.orgProject 5)]) :=
  (((project_id_scope_order sampleClient sampleEnv { } 5 rfl (by decide)).2
      (by decide)).2 (by decide)).1 "P1" (by decide)

theorem getProjectId_statusFieldId (c : Client) (env : Env) (st : ClientState)
    (pn : Option Nat) :
    (getProjectId c env st pn).2.1.statusFieldId = st.statusFieldId := by
  unfold getProjectId
  split
  · rfl
  · split
    · rfl
    · split
      · rfl
      · split <;> (try rfl) <;> (split <;> (try rfl) <;> (split <;> rfl))

theorem getProjectId_statusField_invariant (c : Client) (env : Env) (st : ClientState)
    (pn : Option Nat) (x : Option String) :
    getProjectId c env { st with statusFieldId := x } pn
      = ((getProjectId c env st pn).1,
         { (getProjectId c env st pn).2.1 with statusFieldId := x },
         (getProjectId c env st pn).2.2) := by
  show getProjectId c env (ClientState.mk st.projectId st.repoId x) pn = _
  unfold getProjectId
  dsimp only
  split
  · rfl
  · split
    · rfl
    · split
      · rfl
      · split <;> (try rfl) <;> (split <;> (try rfl) <;> (split <;> rfl))



/-- C5 counterexample: with the project id cached and the status-field-id
attribute unset, a first successful status-field resolution leaves the
attribute unset, and a second resolution on the resulting state issues the
fields query again instead of returning a cached value. -/
theorem status_field_memoization_cex :
    (getStatusFieldId sampleClient sampleEnv cachedState none).1
        = .ok ("F1", [("Todo", "O1"), ("In Progress", "O2"), ("Done", "O3")]) ∧
    (getStatusFieldId sampleClient sampleEnv cachedState none).2.1.statusFieldId = none ∧
    (getStatusFieldId sampleClient sampleEnv
        (getStatusFieldId sampleClient sampleEnv cachedState none).2.1 none).2.2
      = [.query (.projectFields "P1")] :=
  ⟨rfl, rfl, rfl⟩

/-- C5 (amended): the status-field id is not a memoized identifier: the
resolution never writes the instance's status-field-id attribute, its result
does not depend on that attribute's value, and every resolution whose
project-id step succeeds fetches the project's fields remotely. -/
theorem status_field_id_not_memoized (c : Client) (env : Env) (st : ClientState)
    (pn : Option Nat) (x : Option String) :
    (getStatusFieldId c env st pn).2.1.statusFieldId = st.statusFieldId ∧
    (getStatusFieldId c env { st with statusFieldId := x } pn).1
        = (getStatusFieldId c env st pn).1 ∧
    (∀ pid, (getProjectId c env st pn).1 = .ok pid →
        .query (.projectFields pid) ∈ (getStatusFieldId c env st pn).2.2) := by
  refine ⟨?_, ?_, ?_⟩
  · unfold getStatusFieldId
    rcases hg : getProjectId c env st pn with ⟨r, st1, l1⟩
    have hst1 : st1.statusFieldId = st.statusFieldId := by
      have h2 := getProjectId_statusFieldId c env st pn
      rw [hg] at h2
      exact h2
    cases r with
    | error e => exact hst1
    | ok pid =>
      cases hf : env.fields.find? (fun f => f.name = some "Status") <;> simp [hf, hst1]
  · unfold getStatusFieldId
    rw [getProjectId_statusField_invariant c env st pn x]
    rcases hg : getProjectId c env st pn with ⟨r, st1, l1⟩
    cases r with
    | error e => rfl
    | ok pid =>
      cases hf : env.fields.find? (fun f => f.name = some "Status") <;> simp [hf]
  · intro pid hok
    unfold getStatusFieldId
    rcases hg : getProjectId c env st pn with ⟨r, st1, l1⟩
    rw [hg] at hok
    cases r with
    | error e => simp at hok
    | ok pid2 =>
      have he : pid2 = pid := by simpa using hok
      subst he
      cases hf : env.fields.find? (fun f => f.name = some "Status") <;> simp [hf]

/-- C5 witness for the amended theorem: a resolution on the cached sample
state still issues the fields query. -/
theorem status_field_id_not_memoized_witness :
    .query (.projectFields "P1")
      ∈ (getStatusFieldId sampleClient sampleEnv cachedState none).2.2 :=
  (status_field_id_not_memoized sampleClient sampleEnv cachedState none none).2.2 "P1" rfl

theorem getTicket_mutations (env : Env) (s : String) :
    mutations (getTicket env s).2 = [] := by
  unfold getTicket
  split
  · split <;> rfl
  · split <;> rfl

/-- C10: add_branch and add_pull_request issue no remote mutation: each
performs only the get_ticket read and returns the fetched ticket with the
branch set (respectively the pull-request URL appended) on the in-memory
object. -/
theorem add_branch_add_pull_request_read_only (env : Env) (tid bn pu : String)
    (t : Ticket) (l : List Effect) (h : getTicket env tid = (.ok t, l)) :
    addBranch env tid bn = (.ok { t with branch := some bn }, l) ∧
    addPullRequest env tid pu = (.ok { t with pullRequests := t.pullRequests ++ [pu] }, l) ∧
    mutations (addBranch env tid bn).2 = [] ∧
    mutations (addPullRequest env tid pu).2 = [] := by
  have hb : addBranch env tid bn = (.ok { t with branch := some bn }, l) := by
    unfold addBranch
    rw [h]
  have hp : addPullRequest env tid pu
      = (.ok { t with pullRequests := t.pullRequests ++ [pu] }, l) := by
    unfold addPullRequest
    rw [h]
  have hl : mutations l = [] := by
    have := getTicket_mutations env tid
    rw [h] at this
    exact this
  exact ⟨hb, hp, by rw [hb]; exact hl, by rw [hp]; exact hl⟩

/-- C10 witness: on the sample backend, linking a branch and a pull request
to ticket 10 returns the locally annotated ticket with a query-only trace. -/
theorem add_branch_add_pull_request_read_only_witness :
    addBranch sampleEnv "10" "feat"
      = (.ok { parseIssueToTicket issueA none with branch := some "feat" },
         [.query (.issueByNumber 10)]) ∧
    mutations (addPullRequest sampleEnv "10" "pr-url").2 = [] := by
  have h := add_branch_add_pull_request_read_only sampleEnv "10" "feat" "pr-url"
    (parseIssueToTicket issueA none) [.query (.issueByNumber 10)] rfl
  exact ⟨h.1, h.2.2.2⟩



theorem mutations_append (l1 l2 : List Effect) :
    mutations (l1 ++ l2) = mutations l1 ++ mutations l2 :=
  List.filter_append ..

theorem mutations_mutate (m : MutKind) : mutations [.mutate m] = [.mutate m] := rfl

theorem addComment_ok (env : Env) (a body : String) (ta : Ticket) (la : List Effect)
    (ha : getTicket env a = (.ok ta, la)) :
    (addComment env a body).2 = la ++ [.mutate (.addComment ta.id body)] ∧
    ∃ cm, addComment env a body = (.ok cm, la ++ [.mutate (.addComment ta.id body)]) := by
  unfold addComment
  rw [ha]
  exact ⟨rfl, _, rfl⟩

/-- C9 counterexample: on the sample backend, addSubtask("10","11") posts
the comment "Subtask: #11 Ticket B" on A and returns the initially fetched
parent object with subtasks ["11"], while the ticket a re-fetch of "10"
returns has an empty subtasks list; the trace ends at the comment mutation,
so no re-fetch follows it.  The claim that each relational operation
re-fetches and returns that side's ticket is therefore false. -/
theorem add_subtask_no_refetch_cex :
    (addSubtask sampleEnv "10" "11").1
        = .ok { parseIssueToTicket issueA none with subtasks := ["11"] } ∧
    (getTicket sampleEnv "10").1 = .ok (parseIssueToTicket issueA none) ∧
    (parseIssueToTicket issueA none).subtasks = [] ∧
    (addSubtask sampleEnv "10" "11").1 ≠ (getTicket sampleEnv "10").1 ∧
    (addSubtask sampleEnv "10" "11").2.getLast?
        = some (.mutate (.addComment "NID_A" "Subtask: #11 Ticket B")) := by
  exact ⟨rfl, rfl, rfl, by decide, rfl⟩

/-- C9 (amended): each of addParent, addBlockedBy, addBlocking and
addSubtask resolves both endpoints first, failing with the not-found error
and issuing no mutation when either lookup fails; on success each posts
exactly one comment on the first argument's ticket in its fixed sentence
pattern; addParent, addBlockedBy and addBlocking then re-fetch and return
the first argument's ticket, while addSubtask returns the initially fetched
parent object with the subtask id appended to its subtasks list, without
re-fetching. -/
theorem relational_ops_behavior (env : Env) (a b : String) :
    (∀ e l, getTicket env a = (.error e, l) →
        (addParent env a b).1 = .error e ∧ mutations (addParent env a b).2 = [] ∧
        (addBlockedBy env a b).1 = .error e ∧ mutations (addBlockedBy env a b).2 = [] ∧
        (addBlocking env a b).1 = .error e ∧ mutations (addBlocking env a b).2 = [] ∧
        (addSubtask env a b).1 = .error e ∧ mutations (addSubtask env a b).2 = []) ∧
    (∀ ta la e l, getTicket env a = (.ok ta, la) → getTicket env b = (.error e, l) →
        (addParent env a b).1 = .error e ∧ mutations (addParent env a b).2 = [] ∧
        (addBlockedBy env a b).1 = .error e ∧ mutations (addBlockedBy env a b).2 = [] ∧
        (addBlocking env a b).1 = .error e ∧ mutations (addBlocking env a b).2 = [] ∧
        (addSubtask env a b).1 = .error e ∧ mutations (addSubtask env a b).2 = []) ∧
    (∀ ta tb la lb, getTicket env a = (.ok ta, la) → getTicket env b = (.ok tb, lb) →
        (addParent env a b).1 = .ok ta ∧
        mutations (addParent env a b).2
          = [.mutate (.addComment ta.id
              ("Parent: #" ++ pyShowOptNat tb.number ++ " " ++ tb.title))] ∧
        (addBlockedBy env a b).1 = .ok ta ∧
        mutations (addBlockedBy env a b).2
          = [.mutate (.addComment ta.id
              ("Blocked by: #" ++ pyShowOptNat tb.number ++ " " ++ tb.title))] ∧
        (addBlocking env a b).1 = .ok ta ∧
        mutations (addBlocking env a b).2
          = [.mutate (.addComment ta.id
              ("Blocking: #" ++ pyShowOptNat tb.number ++ " " ++ tb.title))] ∧
        (addSubtask env a b).1 = .ok { ta with subtasks := ta.subtasks ++ [b] } ∧
        mutations (addSubtask env a b).2
          = [.mutate (.addComment ta.id
              ("Subtask: #" ++ pyShowOptNat tb.number ++ " " ++ tb.title))]) := by
  refine ⟨?_, ?_, ?_⟩
  · intro e l h
    have hl : mutations l = [] := by
      have hm := getTicket_mutations env a
      rw [h] at hm
      exact hm
    unfold addParent addBlockedBy addBlocking addSubtask
    rw [h]
    exact ⟨rfl, hl, rfl, hl, rfl, hl, rfl, hl⟩
  · intro ta la e l ha hb
    have hla : mutations la = [] := by
      have hm := getTicket_mutations env a
      rw [ha] at hm
      exact hm
    have hl : mutations l = [] := by
      have hm := getTicket_mutations env b
      rw [hb] at hm
      exact hm
    unfold addParent addBlockedBy addBlocking addSubtask
    rw [ha, hb]
    simp [mutations_append, hla, hl]
  · intro ta tb la lb ha hb
    have hla : mutations la = [] := by
      have hm := getTicket_mutations env a
      rw [ha] at hm
      exact hm
    have hlb : mutations lb = [] := by
      have hm := getTicket_mutations env b
      rw [hb] at hm
      exact hm
    have hcp := (addComment_ok env a
      ("Parent: #" ++ pyShowOptNat tb.number ++ " " ++ tb.title) ta la ha).2
    have hcb := (addComment_ok env a
      ("Blocked by: #" ++ pyShowOptNat tb.number ++ " " ++ tb.title) ta la ha).2
    have hck := (addComment_ok env a
      ("Blocking: #" ++ pyShowOptNat tb.number ++ " " ++ tb.title) ta la ha).2
    have hcs := (addComment_ok env a
      ("Subtask: #" ++ pyShowOptNat tb.number ++ " " ++ tb.title) ta la ha).2
    obtain ⟨cm1, hcp⟩ := hcp
    obtain ⟨cm2, hcb⟩ := hcb
    obtain ⟨cm3, hck⟩ := hck
    obtain ⟨cm4, hcs⟩ := hcs
    simp only [addParent, addBlockedBy, addBlocking, addSubtask, ha, hb, hcp, hcb, hck, hcs,
      mutations_append, hla, hlb, mutations_mutate, List.append_nil, List.nil_append]
    simp

/-- C9 witness for the amended theorem: the success path on the sample
backend, and the not-found path for a missing endpoint. -/
theorem relational_ops_behavior_witness :
    ((addParent sampleEnv "10" "11").1 = .ok (parseIssueToTicket issueA none) ∧
      mutations (addSubtask sampleEnv "10" "11").2
        = [.mutate (.addComment "NID_A" "Subtask: #11 Ticket B")]) ∧
    ((addParent sampleEnv "99" "11").1 = .error "Ticket 99 not found" ∧
      mutations (addParent sampleEnv "99" "11").2 = []) := by
  have hs := (relational_ops_behavior sampleEnv "10" "11").2.2
    (parseIssueToTicket issueA none) (parseIssueToTicket issueB none)
    [.query (.issueByNumber 10)] [.query (.issueByNumber 11)] rfl rfl
  have hf := (relational_ops_behavior sampleEnv "99" "11").1
    "Ticket 99 not found" [.query (.issueByNumber 99)] rfl
  exact ⟨⟨hs.1, hs.2.2.2.2.2.2.2⟩, ⟨hf.1, hf.2.1⟩⟩

theorem getStatusFieldId_cached_found (c : Client) (env : Env) (st : ClientState)
    (pid : String) (fld : FieldNode) (pn : Option Nat)
    (h : st.projectId = some pid) (hne : pid ≠ "")
    (hfld : env.fields.find? (fun f => f.name = some "Status") = some fld) :
    getStatusFieldId c env st pn
      = (.ok (fld.id, optionsDict fld.options), st, [.query (.projectFields pid)]) := by
  unfold getStatusFieldId
  rw [getProjectId_cached c env st pid h hne pn]
  dsimp only
  rw [hfld]
  rfl

theorem getProjectItemId_found (c : Client) (env : Env) (st : ClientState)
    (tid : String) (pn : Option Nat) (pid : String) (t : Ticket) (lt : List Effect)
    (itm : ItemNode)
    (hpid : st.projectId = some pid) (hne : pid ≠ "")
    (ht : getTicket env tid = (.ok t, lt))
    (hitm : env.items.find? (fun it =>
        match it.content with
        | some cnt => cnt.id = t.id
        | none => false) = some itm) :
    getProjectItemId c env st tid pn
      = (.ok itm.id, st, lt ++ [] ++ [.query (.projectItems pid)]) := by
  unfold getProjectItemId
  rw [ht, getProjectId_cached c env st pid hpid hne pn]
  dsimp only
  rw [hitm]

theorem find?_eq_self_of_snd_nodup (l : List (String × String))
    (q : String × String → Bool) (a : String × String)
    (hnd : (l.map Prod.snd).Nodup) (h : l.find? q = some a) :
    l.find? (fun p => p.2 = a.2) = some a := by
  induction l with
  | nil => simp at h
  | cons b l' ih =>
    rw [List.map_cons, List.nodup_cons] at hnd
    cases hq : q b
    · rw [List.find?_cons, hq] at h
      have hmem : a ∈ l' := List.mem_of_find?_eq_some h
      have hne : (b.2 = a.2) = False := by
        simp only [eq_iff_iff, iff_false]
        intro he
        exact hnd.1 (he ▸ List.mem_map_of_mem Prod.snd hmem)
      rw [List.find?_cons]
      simp only [hne, decide_False]
      exact ih hnd.2 h
    · rw [List.find?_cons, hq] at h
      have hba : b = a := by simpa using h
      subst hba
      rw [List.find?_cons]
      simp



/-- C2: when no option name of the project's Status field matches the
requested status case-insensitively, update_status fails before issuing any
mutation, and the failure message enumerates every currently valid option
name of the project. -/
theorem update_status_unknown_enumerates (c : Client) (env : Env) (st : ClientState)
    (tid status : String) (pn : Option Nat) (pid : String) (fld : FieldNode)
    (hpid : st.projectId = some pid) (hne : pid ≠ "")
    (hfld : env.fields.find? (fun f => f.name = some "Status") = some fld)
    (hnomatch : ∀ p ∈ optionsDict fld.options, pyLower p.1 ≠ pyLower status) :
    (updateStatus c env st tid status pn).1
        = .error ("Status '" ++ status ++ "' not found. Available options: "
            ++ String.intercalate ", " ((optionsDict fld.options).map Prod.fst)) ∧
    mutations (updateStatus c env st tid status pn).2.2 = [] := by
  have hfind : (optionsDict fld.options).find? (fun p => pyLower p.1 = pyLower status)
      = none := by
    rw [List.find?_eq_none]
    intro p hp
    simp [hnomatch p hp]
  unfold updateStatus
  dsimp only
  rw [getStatusFieldId_cached_found c env st pid fld _ hpid hne hfld]
  dsimp only
  rw [hfind]
  simp [truthyStr, statusNotFoundMsg, mutations, Effect.isMutation]

/-- C2 witness: on the sample project with options Todo, In Progress, Done,
requesting status "weird" fails with the enumerating message and issues no
mutation. -/
theorem update_status_unknown_enumerates_witness :
    (updateStatus sampleClient sampleEnv cachedState "10" "weird" none).1
        = .error "Status 'weird' not found. Available options: Todo, In Progress, Done" ∧
    mutations (updateStatus sampleClient sampleEnv cachedState "10" "weird" none).2.2
        = [] := by
  have h := update_status_unknown_enumerates sampleClient sampleEnv cachedState "10" "weird"
    none "P1"
    { name := some "Status", id := "F1",
      options := [{ id := "O1", name := "Todo" },
                  { id := "O2", name := "In Progress" },
                  { id := "O3", name := "Done" }] }
    rfl (by decide) rfl (by decide)
  exact ⟨h.1, h.2⟩

/-- C1: when some option of the project's Status field matches the requested
status case-insensitively (first match, nonempty id, option ids pairwise
distinct) and the item and ticket lookups succeed, update_status succeeds
and the returned ticket's status is exactly that option's display name,
regardless of the status the re-fetch itself reports. -/
theorem update_status_returns_matched_name (c : Client) (env : Env) (st : ClientState)
    (tid status : String) (pn : Option Nat) (pid : String) (fld : FieldNode)
    (optName optId : String) (t : Ticket) (lt : List Effect) (itm : ItemNode)
    (hpid : st.projectId = some pid) (hne : pid ≠ "")
    (hfld : env.fields.find? (fun f => f.name = some "Status") = some fld)
    (hmatch : (optionsDict fld.options).find? (fun p => pyLower p.1 = pyLower status)
        = some (optName, optId))
    (hoid : optId ≠ "")
    (hnodup : ((optionsDict fld.options).map Prod.snd).Nodup)
    (ht : getTicket env tid = (.ok t, lt))
    (hitm : env.items.find? (fun it =>
        match it.content with
        | some cnt => cnt.id = t.id
        | none => false) = some itm) :
    (updateStatus c env st tid status pn).1 = .ok { t with status := optName } := by
  have hover : (optionsDict fld.options).find? (fun p => p.2 = optId)
      = some (optName, optId) :=
    find?_eq_self_of_snd_nodup _ _ _ hnodup hmatch
  unfold updateStatus
  dsimp only
  rw [getStatusFieldId_cached_found c env st pid fld _ hpid hne hfld]
  dsimp only
  rw [hmatch]
  dsimp only [Option.map]
  rw [truthyStr_some hoid]
  dsimp only [Bool.not_true, Bool.false_eq_true, if_false, Option.getD_some]
  rw [getProjectItemId_found c env st tid _ pid t lt itm hpid hne ht hitm]
  dsimp only
  rw [getProjectId_cached c env st pid hpid hne]
  dsimp only
  rw [ht]
  dsimp only
  rw [hover]
  rfl

/-- C1 witness: requesting "done" (lower case) against the sample project's
options Todo, In Progress, Done succeeds with status exactly "Done". -/
theorem update_status_returns_matched_name_witness :
    (updateStatus sampleClient sampleEnv cachedState "10" "done" none).1
        = .ok { parseIssueToTicket issueA none with status := "Done" } :=
  update_status_returns_matched_name sampleClient sampleEnv cachedState "10" "done" none
    "P1"
    { name := some "Status", id := "F1",
      options := [{ id := "O1", name := "Todo" },
                  { id := "O2", name := "In Progress" },
                  { id := "O3", name := "Done" }] }
    "Done" "O3" (parseIssueToTicket issueA none) [.query (.issueByNumber 10)]
    { id := "ITEM_A", content := some { id := "NID_A", number := some 10 } }
    rfl (by decide) rfl (by decide) (by decide) (by decide) rfl rfl

end GithubProjectsMCP
